/-
  Verification of openedx-event-sink-clickhouse against its specification.

  Shallow embedding of the sink/serialization subsystem:
  * `event_sink_clickhouse/sinks/course_published.py` (CoursePublishedSink)
  * `event_sink_clickhouse/sinks/base_sink.py` (BaseSink, ModelBaseSink)
  * `event_sink_clickhouse/sinks/user_retire.py` (UserRetirementSink)
  * `event_sink_clickhouse/serializers.py` (BaseSinkSerializer)
  * `event_sink_clickhouse/management/commands/dump_data_to_clickhouse.py`
  * `event_sink_clickhouse/management/commands/dump_courses_to_clickhouse.py`

  Effectful calls (HTTP requests to ClickHouse, the modulestore, Django ORM
  lookups, `uuid.uuid4()`, `timezone.now()`) are modelled by passing their
  results (or a deterministic supply for the generators) as explicit
  arguments; log output is returned as a list of strings.
-/
import Mathlib

namespace EventSink

/-! ## Python datetime model

`should_dump_course` (course_published.py:452-456) parses both timestamps
with `datetime.datetime.strptime(_, "%Y-%m-%d %H:%M:%S.%f+00:00")` and
compares the resulting (naive) `datetime` objects.  Python compares
datetimes lexicographically on (year, month, day, hour, minute, second,
microsecond); `str()` of a naive datetime renders
"YYYY-MM-DD HH:MM:SS[.ffffff]", omitting the fractional part when the
microsecond field is zero. -/

structure PyDateTime where
  year : Nat
  month : Nat
  day : Nat
  hour : Nat
  minute : Nat
  second : Nat
  microsecond : Nat
deriving DecidableEq, Repr

/-- Python `datetime.__lt__`: lexicographic on the seven fields. -/
def pyDtLtb (a b : PyDateTime) : Bool :=
  if a.year ≠ b.year then a.year < b.year
  else if a.month ≠ b.month then a.month < b.month
  else if a.day ≠ b.day then a.day < b.day
  else if a.hour ≠ b.hour then a.hour < b.hour
  else if a.minute ≠ b.minute then a.minute < b.minute
  else if a.second ≠ b.second then a.second < b.second
  else a.microsecond < b.microsecond

/-- Zero-pad a natural number to the given width, as Python's `%02d`/`%06d`. -/
def padNat (width : Nat) (n : Nat) : String :=
  let s := toString n
  let pad := width - s.length
  String.mk (List.replicate pad '0') ++ s

/-- `str()` of a naive Python datetime (`datetime.date.__str__` /
`datetime.datetime.__str__`): "YYYY-MM-DD HH:MM:SS", with ".ffffff"
appended only when the microsecond is nonzero. -/
def pyDtStr (d : PyDateTime) : String :=
  padNat 4 d.year ++ "-" ++ padNat 2 d.month ++ "-" ++ padNat 2 d.day ++ " " ++
    padNat 2 d.hour ++ ":" ++ padNat 2 d.minute ++ ":" ++ padNat 2 d.second ++
    (if d.microsecond ≠ 0 then "." ++ padNat 6 d.microsecond else "")

/-- Python exceptions surfaced by the embedded functions. -/
inductive PyError
  /-- `requests.exceptions.HTTPError` from `raise_for_status()`. -/
  | httpError
  /-- stdlib `json.JSONDecodeError` from `json.loads` on a malformed
  document. -/
  | jsonDecodeError
  /-- stdlib `ValueError`, e.g. from a `datetime.strptime` format
  mismatch. -/
  | valueError
deriving DecidableEq, Repr

/-- `datetime.datetime.strptime(value, "%Y-%m-%d %H:%M:%S.%f+00:00")`
applied to the `str()` rendering of an aware datetime `d` (that rendering
is `pyDtStr d ++ "+00:00"`).  The format's mandatory `.%f` field matches
iff the rendering carries a fractional part, which `str()` includes iff
`d.microsecond ≠ 0`; on a match the parsed (naive) datetime has exactly
`d`'s seven fields, on a mismatch `strptime` raises `ValueError`. -/
def pyStrptimeDt (d : PyDateTime) : Except PyError PyDateTime :=
  if d.microsecond ≠ 0 then Except.ok d else Except.error PyError.valueError

/-! ## CoursePublishedSink.should_dump_course (course_published.py:424-469)

The two effectful lookups `get_course_last_dump_time` (a ClickHouse query,
returning `str(datetime.fromisoformat(...))`) and
`get_course_last_published` (a CourseOverview lookup, returning
`str(overview.modified)`) are passed in as their results; since both
strings are `str()` renderings of datetimes, each is represented by the
`PyDateTime` it renders.  Before the comparison, the code re-parses both
strings with `strptime("%Y-%m-%d %H:%M:%S.%f+00:00")`
(course_published.py:452-456), which raises `ValueError` whenever a
rendering has no fractional part (microsecond 0) — modelled by
`pyStrptimeDt`. -/

def should_dump_course (course_last_dump_time : Option PyDateTime)
    (course_last_published_date : Option PyDateTime) :
    Except PyError (Bool × String) :=
  match course_last_dump_time with
  | none => Except.ok (true, "Course is not present in ClickHouse")
  | some last_dump_val =>
    match course_last_published_date with
    | none => Except.ok (false, "No last modified date in CourseOverview")
    | some last_pub_val =>
      match pyStrptimeDt last_dump_val with
      | Except.error e => Except.error e
      | Except.ok lastDump =>
        match pyStrptimeDt last_pub_val with
        | Except.error e => Except.error e
        | Except.ok lastPub =>
          let needs_dump := pyDtLtb lastDump lastPub
          if needs_dump then
            Except.ok (true, "Course has been published since last dump time - " ++
              "last dumped " ++ pyDtStr lastDump ++ " < last published " ++
              pyDtStr lastPub)
          else
            Except.ok (false, "Course has NOT been published since last dump time - " ++
              "last dumped " ++ pyDtStr lastDump ++ " >= last published " ++
              pyDtStr lastPub)

/-! ## Remote timestamp lookups (course_published.py:390-422,
base_sink.py:327-348)

Both functions issue a `SELECT max(...)` query and inspect the response
body: a whitespace-only body means the record was never dumped and maps to
`None`; otherwise the body is parsed with `datetime.fromisoformat` and
re-rendered with `str()`.  The HTTP layer and `fromisoformat` are external;
the parse is passed in as a function argument. -/

/-- Python `str.strip()`: remove whitespace from both ends. -/
def pyStrip (s : String) : String :=
  String.mk (((s.data.dropWhile Char.isWhitespace).reverse.dropWhile
    Char.isWhitespace).reverse)

def get_course_last_dump_time (parseIso : String → PyDateTime)
    (responseText : String) : Option PyDateTime :=
  if pyStrip responseText ≠ "" then
    some (parseIso (pyStrip responseText))
  else
    none

/-- `ModelBaseSink.get_last_dumped_timestamp` (base_sink.py:327-348): same
response handling as `get_course_last_dump_time`, over the sink's own
table/key. -/
def get_last_dumped_timestamp (parseIso : String → PyDateTime)
    (responseText : String) : Option PyDateTime :=
  if pyStrip responseText ≠ "" then
    some (parseIso (pyStrip responseText))
  else
    none

/-- Composition exercised by claim C5: `should_dump_course` applied to the
result of the ClickHouse lookup for the given response body. -/
def should_dump_course_from_response (parseIso : String → PyDateTime)
    (responseText : String) (course_last_published_date : Option PyDateTime) :
    Except PyError (Bool × String) :=
  should_dump_course (get_course_last_dump_time parseIso responseText)
    course_last_published_date

/-! ### Claims C1 and C5 -/

theorem pyDtLtb_irrefl (d : PyDateTime) : pyDtLtb d d = false := by
  simp [pyDtLtb]

/-- C1 counterexample: at exactly-equal timestamps whose `str()` rendering
has no fractional part (microsecond 0 — e.g. a course dumped and published
at `2023-05-03 15:47:39+00:00`), `should_dump_course` does not return
false: the `strptime("%Y-%m-%d %H:%M:%S.%f+00:00")` re-parse at
course_published.py:452-456 raises `ValueError`, because the mandatory
`.%f` field is absent from the rendered string. -/
theorem should_dump_course_claim_false :
    should_dump_course (some ⟨2023, 5, 3, 15, 47, 39, 0⟩)
        (some ⟨2023, 5, 3, 15, 47, 39, 0⟩) =
      Except.error PyError.valueError ∧
    ¬ ∃ reason, should_dump_course (some ⟨2023, 5, 3, 15, 47, 39, 0⟩)
        (some ⟨2023, 5, 3, 15, 47, 39, 0⟩) = Except.ok (false, reason) := by
  constructor
  · rfl
  · rintro ⟨reason, hr⟩
    rw [show should_dump_course (some ⟨2023, 5, 3, 15, 47, 39, 0⟩)
        (some ⟨2023, 5, 3, 15, 47, 39, 0⟩) = Except.error PyError.valueError
      from rfl] at hr
    exact Except.noConfusion hr

/-- C1 amended: for every record with both a remote last-exported and a
local last-modified timestamp whose `str()` renderings carry a fractional
part (both microsecond fields nonzero — on a zero-microsecond rendering
the `strptime` re-parse raises `ValueError` instead of returning, see the
counterexample), `should_dump_course` returns without raising; the
returned verdict is true iff the last-modified (publish) timestamp is
strictly greater than the last-exported (dump) timestamp, it is false on
exactly equal timestamps, and the reason string contains the `str()`
renderings of both timestamps. -/
theorem should_dump_course_strict_compare (lastDump lastPub : PyDateTime)
    (hd : lastDump.microsecond ≠ 0) (hp : lastPub.microsecond ≠ 0) :
    (∃ r, should_dump_course (some lastDump) (some lastPub) = Except.ok r) ∧
    (∀ r, should_dump_course (some lastDump) (some lastPub) = Except.ok r →
      ((r.1 = true ↔ pyDtLtb lastDump lastPub = true) ∧
       (lastDump = lastPub → r.1 = false) ∧
       (∃ pre mid post, r.2 =
         pre ++ pyDtStr lastDump ++ mid ++ pyDtStr lastPub ++ post))) := by
  have hdump : pyStrptimeDt lastDump = Except.ok lastDump := by
    simp [pyStrptimeDt, hd]
  have hpub : pyStrptimeDt lastPub = Except.ok lastPub := by
    simp [pyStrptimeDt, hp]
  cases hlt : pyDtLtb lastDump lastPub
  · have heq : should_dump_course (some lastDump) (some lastPub) =
        Except.ok (false,
          "Course has NOT been published since last dump time - " ++
          "last dumped " ++ pyDtStr lastDump ++ " >= last published " ++
          pyDtStr lastPub) := by
      simp [should_dump_course, hdump, hpub, hlt]
    refine ⟨⟨_, heq⟩, ?_⟩
    intro r hr
    rw [heq] at hr
    cases Except.ok.inj hr
    refine ⟨by simp [hlt], fun _ => rfl, ?_⟩
    exact ⟨"Course has NOT been published since last dump time - last dumped ",
      " >= last published ", "", by simp⟩
  · have heq : should_dump_course (some lastDump) (some lastPub) =
        Except.ok (true,
          "Course has been published since last dump time - " ++
          "last dumped " ++ pyDtStr lastDump ++ " < last published " ++
          pyDtStr lastPub) := by
      simp [should_dump_course, hdump, hpub, hlt]
    refine ⟨⟨_, heq⟩, ?_⟩
    intro r hr
    rw [heq] at hr
    cases Except.ok.inj hr
    refine ⟨by simp [hlt], ?_, ?_⟩
    · intro he
      rw [he, pyDtLtb_irrefl] at hlt
      exact Bool.noConfusion hlt
    · exact ⟨"Course has been published since last dump time - last dumped ",
        " < last published ", "", by simp⟩

theorem should_dump_course_strict_compare_witness :
    (∃ r, should_dump_course (some (⟨2023, 5, 3, 15, 47, 39, 331024⟩ : PyDateTime))
        (some (⟨2023, 5, 3, 15, 47, 39, 331024⟩ : PyDateTime)) = Except.ok r) ∧
    (∀ r, should_dump_course (some (⟨2023, 5, 3, 15, 47, 39, 331024⟩ : PyDateTime))
        (some (⟨2023, 5, 3, 15, 47, 39, 331024⟩ : PyDateTime)) = Except.ok r →
      ((r.1 = true ↔ pyDtLtb ⟨2023, 5, 3, 15, 47, 39, 331024⟩
          ⟨2023, 5, 3, 15, 47, 39, 331024⟩ = true) ∧
       ((⟨2023, 5, 3, 15, 47, 39, 331024⟩ : PyDateTime) =
          ⟨2023, 5, 3, 15, 47, 39, 331024⟩ → r.1 = false) ∧
       (∃ pre mid post, r.2 =
         pre ++ pyDtStr ⟨2023, 5, 3, 15, 47, 39, 331024⟩ ++ mid ++
         pyDtStr ⟨2023, 5, 3, 15, 47, 39, 331024⟩ ++ post))) :=
  should_dump_course_strict_compare ⟨2023, 5, 3, 15, 47, 39, 331024⟩
    ⟨2023, 5, 3, 15, 47, 39, 331024⟩ (by decide) (by decide)

/-- C5: a whitespace-only ClickHouse response body makes both timestamp
lookups return `none` (rather than raising), after which `should_dump_course`
returns `true` with the "not present" reason; conversely, when the record
does exist remotely but the local last-modified timestamp is `None`,
`should_dump_course` returns `false` with the "no last modified date"
reason.  Both paths return before the `strptime` re-parse at
course_published.py:452-456 is reached, so no exception can occur. -/
theorem empty_response_and_null_modified (parseIso : String → PyDateTime)
    (responseText : String) (lastPub : Option PyDateTime) (d : PyDateTime)
    (hempty : pyStrip responseText = "") :
    get_course_last_dump_time parseIso responseText = none ∧
    get_last_dumped_timestamp parseIso responseText = none ∧
    should_dump_course_from_response parseIso responseText lastPub =
      Except.ok (true, "Course is not present in ClickHouse") ∧
    should_dump_course (some d) none =
      Except.ok (false, "No last modified date in CourseOverview") := by
  refine ⟨?_, ?_, ?_, rfl⟩
  · simp [get_course_last_dump_time, hempty]
  · simp [get_last_dumped_timestamp, hempty]
  · simp [should_dump_course_from_response, get_course_last_dump_time, hempty,
      should_dump_course]

theorem empty_response_and_null_modified_witness :
    get_course_last_dump_time (fun _ => ⟨2023, 1, 1, 0, 0, 0, 0⟩) "  \n" = none ∧
    get_last_dumped_timestamp (fun _ => ⟨2023, 1, 1, 0, 0, 0, 0⟩) "  \n" = none ∧
    should_dump_course_from_response (fun _ => ⟨2023, 1, 1, 0, 0, 0, 0⟩) "  \n" none =
      Except.ok (true, "Course is not present in ClickHouse") ∧
    should_dump_course (some ⟨2023, 1, 1, 0, 0, 0, 0⟩) none =
      Except.ok (false, "No last modified date in CourseOverview") :=
  empty_response_and_null_modified (fun _ => ⟨2023, 1, 1, 0, 0, 0, 0⟩) "  \n" none
    ⟨2023, 1, 1, 0, 0, 0, 0⟩ (by decide)

/-! ## BaseSink._send_clickhouse_request (base_sink.py:55-86)

The function sends the prepared request, calls `response.raise_for_status()`,
and — when `expected_insert_rows` is truthy — reads the
`X-ClickHouse-Summary` header, parses it with the *stdlib* `json.loads`
(base_sink.py imports the standard `json` module), extracts
`["written_rows"]` and compares `int(written_rows)` with the expectation,
logging (not raising) on mismatch.  The `try` block is wrapped by

    except requests.exceptions.HTTPError as e: ... raise
    except (requests.exceptions.InvalidJSONError, KeyError): return response

Exception classes involved:
* a missing header key or a missing "written_rows" key raises `KeyError`,
  which the second handler catches (returning the response);
* a header value that is not valid JSON makes the stdlib `json.loads` raise
  `json.JSONDecodeError`, a subclass of `ValueError`.  It is *not* a
  subclass of `requests.exceptions.InvalidJSONError` (that class is a
  `RequestException`; only `requests.exceptions.JSONDecodeError`, raised by
  `Response.json()`, inherits from both) nor of `KeyError`, so it escapes
  both handlers and propagates to the caller.

The summary header value is modelled by the outcome of that stdlib
parsing/lookup chain. -/

/-- Outcome of `json.loads(summary)["written_rows"]` on the raw header
value. -/
inductive SummaryBody
  /-- The header value is not valid JSON: `json.loads` raises the stdlib
  `json.JSONDecodeError`. -/
  | malformed
  /-- Valid JSON, but the object has no "written_rows" key: `KeyError`. -/
  | noWrittenRows
  /-- Valid JSON carrying `written_rows`; `n` is the value of
  `int(written_rows)`. -/
  | writtenRows (n : Nat)
deriving DecidableEq, Repr

structure HttpResponse where
  statusCode : Nat
  /-- `response.headers["X-ClickHouse-Summary"]`, `none` when the header is
  absent. -/
  summaryHeader : Option SummaryBody
  text : String
deriving DecidableEq, Repr

/-- `Response.raise_for_status()` raises for 4xx and 5xx status codes. -/
def raiseForStatus (statusCode : Nat) : Bool :=
  400 ≤ statusCode && statusCode < 600

def send_clickhouse_request (url : String) (resp : HttpResponse)
    (expected_insert_rows : Option Nat) :
    Except PyError HttpResponse × List String :=
  if raiseForStatus resp.statusCode then
    -- except requests.exceptions.HTTPError: four log lines, then re-raise
    (Except.error PyError.httpError,
      ["HTTPError", "headers", "response", resp.text])
  else
    -- Python truthiness: `if expected_insert_rows:` skips both None and 0
    match expected_insert_rows with
    | none => (Except.ok resp, [])
    | some n =>
      if n = 0 then (Except.ok resp, [])
      else
        match resp.summaryHeader with
        | none =>
          -- KeyError on headers["X-ClickHouse-Summary"], caught: return response
          (Except.ok resp, [])
        | some SummaryBody.malformed =>
          -- stdlib json.JSONDecodeError: caught by neither handler
          (Except.error PyError.jsonDecodeError, [])
        | some SummaryBody.noWrittenRows =>
          -- KeyError on ["written_rows"], caught: return response
          (Except.ok resp, [])
        | some (SummaryBody.writtenRows w) =>
          if n ≠ w then
            (Except.ok resp,
              ["Clickhouse query " ++ url ++ " expected " ++ toString n ++
                " rows to be inserted, but only got " ++ toString w ++ "!"])
          else
            (Except.ok resp, [])

/-- C6 counterexample: the claim fails on the code at two concrete inputs.
(1) A 2xx response whose `X-ClickHouse-Summary` header holds malformed JSON
does not have its row-count check "skipped without error": the stdlib
`json.JSONDecodeError` escapes the `except (InvalidJSONError, KeyError)`
handler, so the call raises instead of returning the response.
(2) With a supplied expected row count of 0 and an acknowledged
`written_rows` of 2 (a mismatch), no error line at all is logged, because
`if expected_insert_rows:` treats 0 as falsy. -/
theorem send_clickhouse_request_claim_false :
    (send_clickhouse_request "https://foo.bar/" ⟨200, some SummaryBody.malformed, ""⟩
        (some 3)).1 = Except.error PyError.jsonDecodeError ∧
    ¬ ((send_clickhouse_request "https://foo.bar/"
        ⟨200, some (SummaryBody.writtenRows 2), ""⟩ (some 0)).2.length = 1) := by
  constructor
  · rfl
  · decide

/-- C6 amended: for every send with a *nonzero* expected row count where the
remote responds without an HTTP error: if the acknowledged `written_rows`
differs from the expected count, exactly one error line containing both the
expected and actual counts is logged and the response object is still
returned without raising; if the remote omits the row-count acknowledgement
(header absent, or summary without a `written_rows` key), the check is
skipped and the response is returned without error; but a summary that is
present and malformed (not valid JSON) propagates as an error instead of
being skipped. -/
theorem send_clickhouse_request_row_count_audit (url : String)
    (resp : HttpResponse) (n : Nat) (hok : raiseForStatus resp.statusCode = false)
    (hn : n ≠ 0) :
    (∀ w, resp.summaryHeader = some (SummaryBody.writtenRows w) → w ≠ n →
      send_clickhouse_request url resp (some n) =
        (Except.ok resp,
          ["Clickhouse query " ++ url ++ " expected " ++ toString n ++
            " rows to be inserted, but only got " ++ toString w ++ "!"])) ∧
    (resp.summaryHeader = none ∨ resp.summaryHeader = some SummaryBody.noWrittenRows →
      send_clickhouse_request url resp (some n) = (Except.ok resp, [])) ∧
    (resp.summaryHeader = some SummaryBody.malformed →
      send_clickhouse_request url resp (some n) =
        (Except.error PyError.jsonDecodeError, [])) := by
  refine ⟨?_, ?_, ?_⟩
  · intro w hw hwn
    simp [send_clickhouse_request, hok, hn, hw, Ne.symm hwn]
  · rintro (h | h) <;> simp [send_clickhouse_request, hok, hn, h]
  · intro h
    simp [send_clickhouse_request, hok, hn, h]

theorem send_clickhouse_request_row_count_audit_witness :
    raiseForStatus 200 = false ∧ (3 : Nat) ≠ 0 ∧
    send_clickhouse_request "https://foo.bar/"
        ⟨200, some (SummaryBody.writtenRows 2), ""⟩ (some 3) =
      (Except.ok ⟨200, some (SummaryBody.writtenRows 2), ""⟩,
        ["Clickhouse query https://foo.bar/ expected 3 rows to be inserted, " ++
          "but only got 2!"]) :=
  ⟨by decide, by decide,
    (send_clickhouse_request_row_count_audit "https://foo.bar/"
      ⟨200, some (SummaryBody.writtenRows 2), ""⟩ 3 (by decide) (by decide)).1
      2 rfl (by decide)⟩

/-! ## ModelBaseSink.fetch_target_items (base_sink.py:293-313)

The generator selects item keys (an explicit `ids` list converted through
`convert_id` when non-empty, otherwise the queryset), stringifies the skip
list, and yields `(key, should_dump, reason)` triples.  The effectful
`should_dump_item` policy is passed as a function; the second component of
the result records the keys on which that policy was consulted.  The
command passes string skip ids, and `str()` on a `str` is the identity, so
the stringified skip list is the input list itself. -/

/-- The triple yielded for a single item key. -/
def fetchYield {κ : Type} (keyStr : κ → String) (name : String)
    (skip_ids : List String) (force_dump : Bool)
    (should_dump_item : κ → Bool × String) (k : κ) : κ × Bool × String :=
  if keyStr k ∈ skip_ids then
    (k, false, name ++ " is explicitly skipped")
  else if force_dump then
    (k, true, "Force is set")
  else
    (k, (should_dump_item k).1, (should_dump_item k).2)

def fetchGo {κ : Type} (keyStr : κ → String) (name : String)
    (skip_ids : List String) (force_dump : Bool)
    (should_dump_item : κ → Bool × String) :
    List κ → List (κ × Bool × String) × List κ
  | [] => ([], [])
  | k :: rest =>
    let r := fetchGo keyStr name skip_ids force_dump should_dump_item rest
    if keyStr k ∈ skip_ids then
      ((k, false, name ++ " is explicitly skipped") :: r.1, r.2)
    else if force_dump then
      ((k, true, "Force is set") :: r.1, r.2)
    else
      ((k, (should_dump_item k).1, (should_dump_item k).2) :: r.1, k :: r.2)

/-- The keys the loop iterates over: `ids` (converted) when truthy, else the
queryset's ids. -/
def fetchItemKeys {κ : Type} (convert_id : String → κ) (queryset_ids : List κ)
    (ids : List String) : List κ :=
  if ids ≠ [] then ids.map convert_id else queryset_ids

def fetch_target_items {κ : Type} (keyStr : κ → String) (name : String)
    (convert_id : String → κ) (queryset_ids : List κ) (ids : List String)
    (skip_ids : List String) (force_dump : Bool)
    (should_dump_item : κ → Bool × String) : List (κ × Bool × String) × List κ :=
  fetchGo keyStr name skip_ids force_dump should_dump_item
    (fetchItemKeys convert_id queryset_ids ids)

/-! ### Claim C9 -/

/-- The yielded list is the pointwise image of the item keys under
`fetchYield`. -/
theorem fetchGo_fst_eq_map {κ : Type} (keyStr : κ → String) (name : String)
    (skip_ids : List String) (force_dump : Bool)
    (should_dump_item : κ → Bool × String) (keys : List κ) :
    (fetchGo keyStr name skip_ids force_dump should_dump_item keys).1 =
      keys.map (fetchYield keyStr name skip_ids force_dump should_dump_item) := by
  induction keys with
  | nil => rfl
  | cons k rest ih =>
    by_cases hks : keyStr k ∈ skip_ids
    · simp [fetchGo, fetchYield, hks, ih]
    · cases hf : force_dump
      · rw [hf] at ih; simp [fetchGo, fetchYield, hks, hf, ih]
      · rw [hf] at ih; simp [fetchGo, fetchYield, hks, hf, ih]

/-- The keys on which the staleness policy was consulted are exactly the
non-skipped keys when `force_dump` is off, and none otherwise. -/
theorem fetchGo_snd_eq_filter {κ : Type} [DecidableEq κ]
    (keyStr : κ → String) (name : String) (skip_ids : List String)
    (force_dump : Bool) (should_dump_item : κ → Bool × String)
    (keys : List κ) :
    (fetchGo keyStr name skip_ids force_dump should_dump_item keys).2 =
      keys.filter (fun k => !(keyStr k ∈ skip_ids : Bool) && !force_dump) := by
  induction keys with
  | nil => rfl
  | cons k rest ih =>
    by_cases hks : keyStr k ∈ skip_ids
    · simp [fetchGo, hks, ih, List.filter]
    · cases hf : force_dump
      · rw [hf] at ih; simp [fetchGo, hks, hf, ih, List.filter]
      · rw [hf] at ih; simp [fetchGo, hks, hf, ih, List.filter]

theorem fetchYield_fst {κ : Type} (keyStr : κ → String) (name : String)
    (skip_ids : List String) (force_dump : Bool)
    (should_dump_item : κ → Bool × String) (k : κ) :
    (fetchYield keyStr name skip_ids force_dump should_dump_item k).1 = k := by
  unfold fetchYield
  split
  · rfl
  · split <;> rfl

/-- C9: in `fetch_target_items` the skip list takes precedence over
`force_dump`: every item whose stringified key is in the skip list is
yielded as not-to-dump with the "explicitly skipped" reason (even when
`force_dump` is true — the statement quantifies over it), and the staleness
policy `should_dump_item` is never consulted for it. -/
theorem fetch_target_items_skip_precedence {κ : Type} [DecidableEq κ]
    (keyStr : κ → String) (name : String) (convert_id : String → κ)
    (queryset_ids : List κ) (ids : List String) (skip_ids : List String)
    (force_dump : Bool) (should_dump_item : κ → Bool × String) (k : κ)
    (hskip : keyStr k ∈ skip_ids) :
    (k ∈ fetchItemKeys convert_id queryset_ids ids →
      (k, false, name ++ " is explicitly skipped") ∈
        (fetch_target_items keyStr name convert_id queryset_ids ids
          skip_ids force_dump should_dump_item).1) ∧
    (∀ e ∈ (fetch_target_items keyStr name convert_id queryset_ids ids
        skip_ids force_dump should_dump_item).1,
      e.1 = k → e = (k, false, name ++ " is explicitly skipped")) ∧
    k ∉ (fetch_target_items keyStr name convert_id queryset_ids ids
      skip_ids force_dump should_dump_item).2 := by
  have hyield : fetchYield keyStr name skip_ids force_dump should_dump_item k =
      (k, false, name ++ " is explicitly skipped") := by
    simp [fetchYield, hskip]
  refine ⟨?_, ?_, ?_⟩
  · intro hk
    rw [show (fetch_target_items keyStr name convert_id queryset_ids ids
        skip_ids force_dump should_dump_item).1 = _ from
      fetchGo_fst_eq_map keyStr name skip_ids force_dump should_dump_item _]
    exact hyield ▸ List.mem_map_of_mem _ hk
  · intro e he h1
    rw [show (fetch_target_items keyStr name convert_id queryset_ids ids
        skip_ids force_dump should_dump_item).1 = _ from
      fetchGo_fst_eq_map keyStr name skip_ids force_dump should_dump_item _] at he
    obtain ⟨k', _, hk'⟩ := List.mem_map.mp he
    have hfst : k' = k := by
      rw [← h1, ← hk', fetchYield_fst]
    rw [← hk', hfst, hyield]
  · intro hk
    rw [show (fetch_target_items keyStr name convert_id queryset_ids ids
        skip_ids force_dump should_dump_item).2 = _ from
      fetchGo_snd_eq_filter keyStr name skip_ids force_dump should_dump_item _] at hk
    have := List.of_mem_filter hk
    simp only [Bool.and_eq_true, Bool.not_eq_true', decide_eq_false_iff_not] at this
    exact this.1 hskip

theorem fetch_target_items_skip_precedence_witness :
    "c1" ∈ ["c1"] ∧
    (("c1" ∈ fetchItemKeys (fun s => s) ([] : List String) ["c1", "c2"] →
      ("c1", false, "Course Overview is explicitly skipped") ∈
        (fetch_target_items (fun s => s) "Course Overview" (fun s => s)
          [] ["c1", "c2"] ["c1"] true (fun _ => (true, "No reason"))).1) ∧
    (∀ e ∈ (fetch_target_items (fun s => s) "Course Overview" (fun s => s)
        [] ["c1", "c2"] ["c1"] true (fun _ => (true, "No reason"))).1,
      e.1 = "c1" →
      e = ("c1", false, "Course Overview is explicitly skipped")) ∧
    "c1" ∉ (fetch_target_items (fun s => s) "Course Overview" (fun s => s)
      [] ["c1", "c2"] ["c1"] true (fun _ => (true, "No reason"))).2) :=
  ⟨by decide,
    fetch_target_items_skip_precedence (fun s => s) "Course Overview"
      (fun s => s) [] ["c1", "c2"] ["c1"] true (fun _ => (true, "No reason"))
      "c1" (by decide)⟩

/-! ## dump_target_objects_to_clickhouse
(management/commands/dump_data_to_clickhouse.py:28-83)

The loop keeps four pieces of state: `submitted_objects`,
`skipped_objects`, the pending `objects_to_submit` accumulator, and the
batches actually passed to `sink.dump(..., many=True)`.  The embedding
reproduces the loop verbatim, including:
* `if len(objects_to_submit) % batch_size == 0:` flushes only exact
  multiples, and nothing after the loop flushes the trailing partial batch;
* on a flush, `submitted_objects.extend(objects_to_submit)` and then,
  unconditionally, `submitted_objects.append(str(object_id))` — keys here
  are the command's strings, so `str()` is the identity;
* `if limit and len(submitted_objects) == limit: break` (Python truthiness:
  a limit of 0 never breaks). -/

structure DumpObjectsState where
  submitted : List String
  skipped : List String
  to_submit : List String
  dumps : List (List String)
deriving DecidableEq, Repr

def dumpObjectsGo (batch_size : Nat) (limit : Option Int) :
    List (String × Bool × String) → DumpObjectsState → DumpObjectsState
  | [], st => st
  | (oid, should, _reason) :: rest, st =>
    if ¬should then
      dumpObjectsGo batch_size limit rest {st with skipped := st.skipped ++ [oid]}
    else
      let ts := st.to_submit ++ [oid]
      let st' :=
        if ts.length % batch_size = 0 then
          {st with dumps := st.dumps ++ [ts],
                   submitted := st.submitted ++ ts,
                   to_submit := []}
        else
          {st with to_submit := ts}
      let st'' := {st' with submitted := st'.submitted ++ [oid]}
      if limit ≠ some 0 ∧ (some (st''.submitted.length : Int) = limit) then st''
      else dumpObjectsGo batch_size limit rest st''

def dump_target_objects_to_clickhouse (name : String) (queryset_ids : List String)
    (should_dump_item : String → Bool × String) (object_ids : List String)
    (objects_to_skip : List String) (force : Bool) (limit : Option Int)
    (batch_size : Nat) : DumpObjectsState :=
  dumpObjectsGo batch_size limit
    (fetch_target_items (fun s => s) name (fun s => s) queryset_ids object_ids
      objects_to_skip force should_dump_item).1
    ⟨[], [], [], []⟩

/-- C2 (code bug): evaluating `dump_target_objects_to_clickhouse` at two
concrete inputs (default no limit, `batch_size = 2`).
(1) One eligible object "a": it is reported in `submitted`, but no batch is
ever dumped — the trailing partial accumulator is dropped when the loop
ends, contradicting the function's own docstring ("one [list] of the
objects that had dump jobs queued for them").
(2) Two eligible objects "a","b": the filled batch is dumped once, but
every key ends up twice in `submitted` (once from
`submitted_objects.extend(objects_to_submit)` and once from the
unconditional `submitted_objects.append(str(object_id))`). -/
theorem dump_target_objects_code_bug :
    dump_target_objects_to_clickhouse "Dummy" [] (fun _ => (true, "No reason"))
        ["a"] [] false none 2 =
      ⟨["a"], [], ["a"], []⟩ ∧
    dump_target_objects_to_clickhouse "Dummy" [] (fun _ => (true, "No reason"))
        ["a", "b"] [] false none 2 =
      ⟨["a", "a", "b", "b"], [], [], [["a", "b"]]⟩ := by
  constructor <;> decide

/-! ## Command.handle for the two management commands
(dump_data_to_clickhouse.py:155-212, dump_courses_to_clickhouse.py:156-206)

Both handlers validate the CLI options before touching any record source:
1. `limit is not None and int(limit) < 1` → CommandError
   "'limit' must be greater than 0!";
2. `limit and force` → CommandError "The 'limit' option cannot be used
   with 'force' as ...";
3. (data command only) missing `--object` → CommandError.
Afterwards the data command scans `ModelBaseSink.__subclasses__()` for the
matching model name and runs `dump_target_objects_to_clickhouse`; the
courses command runs `dump_target_courses_to_clickhouse`.  The record
sources are modelled as the yielded fetch triples; a raised `CommandError`
is an `Except.error` carrying the message. -/

structure DumpDataOptions where
  object : Option String
  ids : Option (List String)
  ids_to_skip : Option (List String)
  force : Bool
  limit : Option Int
  batch_size : Nat
deriving Repr

/-- One registered `ModelBaseSink` subclass: its `model` name, `name`,
queryset ids and staleness policy. -/
structure SinkEntry where
  model : String
  name : String
  queryset_ids : List String
  should_dump_item : String → Bool × String

def dump_data_handle (opts : DumpDataOptions) (registry : List SinkEntry) :
    Except String (Option DumpObjectsState) :=
  let ids := opts.ids.getD []
  let ids_to_skip := opts.ids_to_skip.getD []
  if opts.limit.any (fun l => l < 1) then
    Except.error "'limit' must be greater than 0!"
  else if (opts.limit ≠ none ∧ opts.limit ≠ some 0) ∧ opts.force then
    Except.error ("The 'limit' option cannot be used with 'force' as running the " ++
      "command repeatedly will result in the same objects being dumped every time.")
  else if opts.object = none then
    Except.error "You must specify an object type to dump!"
  else
    match registry.find? (fun e => some e.model = opts.object) with
    | some e =>
      Except.ok (some (dump_target_objects_to_clickhouse e.name e.queryset_ids
        e.should_dump_item ids ids_to_skip opts.force opts.limit opts.batch_size))
    | none => Except.ok none

/-- `dump_target_courses_to_clickhouse`
(dump_courses_to_clickhouse.py:34-95): the per-course loop, returning
`(submitted_courses, skipped_courses, async task submissions)`. -/
def dumpCoursesGo (limit : Option Int) :
    List (String × Bool × String) →
    List String × List String × List String →
    List String × List String × List String
  | [], st => st
  | (key, should, _reason) :: rest, st =>
    if ¬should then
      dumpCoursesGo limit rest (st.1, st.2.1 ++ [key], st.2.2)
    else
      let st' := (st.1 ++ [key], st.2.1, st.2.2 ++ [key])
      if limit ≠ some 0 ∧ (some (st'.1.length : Int) = limit) then st'
      else dumpCoursesGo limit rest st'

def dump_target_courses_to_clickhouse (queryset_ids : List String)
    (should_dump_item : String → Bool × String) (course_keys : List String)
    (courses_to_skip : List String) (force : Bool) (limit : Option Int) :
    List String × List String × List String :=
  dumpCoursesGo limit
    (fetch_target_items (fun s => s) "Course Overview" (fun s => s)
      queryset_ids course_keys courses_to_skip force should_dump_item).1
    ([], [], [])

structure DumpCoursesOptions where
  courses : Option (List String)
  courses_to_skip : Option (List String)
  force : Bool
  limit : Option Int
deriving Repr

def dump_courses_handle (opts : DumpCoursesOptions) (queryset_ids : List String)
    (should_dump_item : String → Bool × String) :
    Except String (List String × List String × List String) :=
  let courses := opts.courses.getD []
  let courses_to_skip := opts.courses_to_skip.getD []
  if opts.limit.any (fun l => l < 1) then
    Except.error "'limit' must be greater than 0!"
  else if (opts.limit ≠ none ∧ opts.limit ≠ some 0) ∧ opts.force then
    Except.error ("The 'limit' option cannot be used with 'force' as running the " ++
      "command repeatedly will result in the same courses being dumped every time.")
  else
    Except.ok (dump_target_courses_to_clickhouse queryset_ids should_dump_item
      courses courses_to_skip opts.force opts.limit)

/-- C7: invoking either dump command with a (positive) limit and force set
raises a CommandError whose message states that the 'limit' option cannot
be used with 'force'.  The rejection is independent of the record source
(the theorem holds for every registry / queryset / policy and never
produces a dump state), so it happens before any record is enumerated and
before any remote call. -/
theorem limit_with_force_rejected (l : Int) (hl : 1 ≤ l)
    (objOpt : Option String) (ids skips : Option (List String)) (bs : Nat)
    (registry : List SinkEntry) (queryset_ids : List String)
    (should_dump_item : String → Bool × String) :
    dump_data_handle ⟨objOpt, ids, skips, true, some l, bs⟩ registry =
      Except.error ("The 'limit' option cannot be used with 'force' as running the " ++
        "command repeatedly will result in the same objects being dumped every time.") ∧
    dump_courses_handle ⟨ids, skips, true, some l⟩ queryset_ids should_dump_item =
      Except.error ("The 'limit' option cannot be used with 'force' as running the " ++
        "command repeatedly will result in the same courses being dumped every time.") := by
  have hnot : ¬ (l < 1) := not_lt.mpr hl
  have hne : l ≠ 0 := by omega
  constructor
  · simp [dump_data_handle, hnot, hne]
  · simp [dump_courses_handle, hnot, hne]

theorem limit_with_force_rejected_witness :
    dump_data_handle ⟨some "dummy", none, none, true, some 1, 1000⟩ [] =
      Except.error ("The 'limit' option cannot be used with 'force' as running the " ++
        "command repeatedly will result in the same objects being dumped every time.") ∧
    dump_courses_handle ⟨none, none, true, some 1⟩ []
        (fun _ => (true, "No reason")) =
      Except.error ("The 'limit' option cannot be used with 'force' as running the " ++
        "command repeatedly will result in the same courses being dumped every time.") :=
  limit_with_force_rejected 1 (by decide) (some "dummy") none none 1000 [] []
    (fun _ => (true, "No reason"))

/-! ## CoursePublishedSink.serialize_course and its helpers
(course_published.py:66-227)

Domain model: a `UsageKey` is an xblock location, carrying its course key,
a block id and an optional branch/version pointer; `for_branch(None)`
(`strip_branch_and_version`) clears the pointer.  `modulestore.get_items`
yields the flat block list in document order; `item.get_children()` is
modelled by storing each child's location.  JSON objects built with
`json.dumps` are modelled as ordered key/value association lists. -/

structure CourseKeyT where
  org : String
  course : String
  run : String
deriving DecidableEq, Repr

/-- `str(course_key)` for a course-v1 key. -/
def courseKeyStr (ck : CourseKeyT) : String :=
  "course-v1:" ++ ck.org ++ "+" ++ ck.course ++ "+" ++ ck.run

structure UsageKey where
  course_key : CourseKeyT
  block_id : String
  /-- branch/version pointer; `none` after `for_branch(None)`. -/
  branch : Option String
deriving DecidableEq, Repr

/-- `str(location)`: the branch renders into the serialized form when
present. -/
def usageKeyStr (l : UsageKey) : String :=
  "block-v1:" ++ l.course_key.org ++ "+" ++ l.course_key.course ++ "+" ++
    l.course_key.run ++ "+type@" ++ l.block_id ++
    (match l.branch with
     | none => ""
     | some b => "@branch@" ++ b)

/-- `CoursePublishedSink.strip_branch_and_version` (course_published.py:66-74):
`location.for_branch(None)`. -/
def strip_branch_and_version (location : UsageKey) : UsageKey :=
  {location with branch := none}

/-- An XBlock as consumed by the serializer: `item.scope_ids.usage_id` is
the location, so the course key is taken from it. -/
structure XBlock where
  location : UsageKey
  block_type : String
  display_name_with_default : String
  edited_on : String
  /-- locations of `item.get_children()`, in declared order. -/
  children : List UsageKey
deriving DecidableEq, Repr

/-- A JSON value as placed into `json.dumps` dictionaries. -/
inductive JValue
  | s (v : String)
  | n (v : Nat)
  | b (v : Bool)
deriving DecidableEq, Repr

structure BlockRow where
  org : String
  course_key : String
  location : String
  display_name : String
  xblock_data_json : List (String × JValue)
  order : Nat
  edited_on : String
  dump_id : String
  time_last_dumped : String
deriving DecidableEq, Repr

/-- `CoursePublishedSink.serialize_xblock` (course_published.py:76-124).
`display_name_with_default.replace("'", "\'")` is the identity: in Python
source, `"\'"` denotes the same one-character string as `"'"`. -/
def serialize_xblock (item : XBlock) (index : Nat)
    (detached_xblock_types : List String) (dump_id : String)
    (dump_timestamp : String) : BlockRow :=
  let course_key := item.location.course_key
  let block_type := item.block_type
  let json_data : List (String × JValue) :=
    [("course", JValue.s course_key.course),
     ("run", JValue.s course_key.run),
     ("block_type", JValue.s block_type),
     ("detached", JValue.n (if block_type ∈ detached_xblock_types then 1 else 0))]
  { org := course_key.org,
    course_key := courseKeyStr course_key,
    location := usageKeyStr item.location,
    display_name := item.display_name_with_default,
    xblock_data_json := json_data,
    order := index,
    edited_on := item.edited_on,
    dump_id := dump_id,
    time_last_dumped := dump_timestamp }

structure CourseOverviewT where
  org : String
  /-- `str(overview.id)`. -/
  id : String
  display_name : String
  start : String
  end_ : String
  enrollment_start : String
  enrollment_end : String
  self_paced : Bool
  created : String
  modified : String
  advertised_start : String
  announcement : String
  lowest_passing_grade : String
  invitation_only : Bool
  max_student_enrollments_allowed : JValue
  effort : JValue
  enable_proctored_exams : Bool
  entrance_exam_enabled : Bool
  external_id : JValue
  language : JValue
deriving DecidableEq, Repr

structure OverviewRow where
  org : String
  course_key : String
  display_name : String
  course_start : String
  course_end : String
  enrollment_start : String
  enrollment_end : String
  self_paced : Bool
  course_data_json : List (String × JValue)
  created : String
  modified : String
  dump_id : String
  time_last_dumped : String
deriving DecidableEq, Repr

/-- `CoursePublishedSink.serialize_course_overview`
(course_published.py:126-173). -/
def serialize_course_overview (overview : CourseOverviewT) (dump_id : String)
    (time_last_dumped : String) : OverviewRow :=
  let json_fields : List (String × JValue) :=
    [("advertised_start", JValue.s overview.advertised_start),
     ("announcement", JValue.s overview.announcement),
     ("lowest_passing_grade", JValue.s overview.lowest_passing_grade),
     ("invitation_only", JValue.b overview.invitation_only),
     ("max_student_enrollments_allowed", overview.max_student_enrollments_allowed),
     ("effort", overview.effort),
     ("enable_proctored_exams", JValue.b overview.enable_proctored_exams),
     ("entrance_exam_enabled", JValue.b overview.entrance_exam_enabled),
     ("external_id", overview.external_id),
     ("language", overview.language)]
  { org := overview.org,
    course_key := overview.id,
    display_name := overview.display_name,
    course_start := overview.start,
    course_end := overview.end_,
    enrollment_start := overview.enrollment_start,
    enrollment_end := overview.enrollment_end,
    self_paced := overview.self_paced,
    course_data_json := json_fields,
    created := overview.created,
    modified := overview.modified,
    dump_id := dump_id,
    time_last_dumped := time_last_dumped }

/-! ### Python dict semantics

`location_to_node` is a Python dict keyed by stripped locations.
Assignment replaces the value in place when the key exists (keeping the
key's original insertion position) and appends otherwise;
`location_to_node.values()` iterates in insertion order. -/

def pyDictSet {α β : Type} [DecidableEq α] :
    List (α × β) → α → β → List (α × β)
  | [], k, v => [(k, v)]
  | (k', v') :: rest, k, v =>
    if k' = k then (k, v) :: rest else (k', v') :: pyDictSet rest k v

def pyDictGet {α β : Type} [DecidableEq α] :
    List (α × β) → α → Option β
  | [], _ => none
  | (k', v') :: rest, k => if k' = k then some v' else pyDictGet rest k

/-- The first serialization loop of `serialize_course`
(course_published.py:196-206): walk the items with a 1-based `index`,
serialize each block and assign it into the dict under its stripped
location. -/
def buildLocationMap (detached_xblock_types : List String) (dump_id : String)
    (dump_timestamp : String) :
    List XBlock → Nat → List (UsageKey × BlockRow) → List (UsageKey × BlockRow)
  | [], _, m => m
  | item :: rest, index, m =>
    let fields := serialize_xblock item (index + 1) detached_xblock_types
      dump_id dump_timestamp
    buildLocationMap detached_xblock_types dump_id dump_timestamp rest (index + 1)
      (pyDictSet m (strip_branch_and_version item.location) fields)

structure RelationshipRow where
  course_key : String
  parent_location : String
  child_location : String
  order : Nat
  dump_id : String
  time_last_dumped : String
deriving DecidableEq, Repr

/-- The relationship loop of `serialize_course`
(course_published.py:208-224): for each item, for each child in declared
order (0-based `enumerate` index), emit an edge when both stripped
endpoints are present in the dict; drop it silently otherwise. -/
def buildRelationships (course_id_str : String) (dump_id : String)
    (dump_timestamp : String) (location_to_node : List (UsageKey × BlockRow))
    (items : List XBlock) : List RelationshipRow :=
  items.foldl (fun acc item =>
    acc ++ (item.children.enum.filterMap (fun ic =>
      match pyDictGet location_to_node (strip_branch_and_version item.location),
        pyDictGet location_to_node (strip_branch_and_version ic.2) with
      | some parent_node, some child_node =>
        some { course_key := course_id_str,
               parent_location := parent_node.location,
               child_location := child_node.location,
               order := ic.1,
               dump_id := dump_id,
               time_last_dumped := dump_timestamp }
      | _, _ => none))) []

structure SerializedCourse where
  overview : OverviewRow
  nodes : List BlockRow
  relationships : List RelationshipRow
deriving DecidableEq, Repr

/-- `CoursePublishedSink.serialize_course` (course_published.py:175-227).
The single `uuid.uuid4()` / `timezone.now()` draw made at the top of the
function is passed in as `dump_id` / `dump_timestamp`; the modulestore,
detached-type list and CourseOverview lookups are passed as values. -/
def serialize_course (dump_id : String) (dump_timestamp : String)
    (course_id : CourseKeyT) (course_overview : CourseOverviewT)
    (items : List XBlock) (detached_xblock_types : List String) :
    SerializedCourse :=
  let serialized_course_overview :=
    serialize_course_overview course_overview dump_id dump_timestamp
  let location_to_node :=
    buildLocationMap detached_xblock_types dump_id dump_timestamp items 0 []
  let relationships :=
    buildRelationships (courseKeyStr course_id) dump_id dump_timestamp
      location_to_node items
  { overview := serialized_course_overview,
    nodes := location_to_node.map Prod.snd,
    relationships := relationships }

/-! ### Python dict lemmas -/

theorem pyDictGet_set {α β : Type} [DecidableEq α] (m : List (α × β))
    (k k' : α) (v : β) :
    pyDictGet (pyDictSet m k v) k' =
      if k = k' then some v else pyDictGet m k' := by
  induction m with
  | nil => simp [pyDictSet, pyDictGet]
  | cons p rest ih =>
    obtain ⟨a, b⟩ := p
    by_cases hak : a = k
    · subst hak
      by_cases hk : a = k'
      · simp [pyDictSet, pyDictGet, hk]
      · simp [pyDictSet, pyDictGet, hk]
    · by_cases hak' : a = k'
      · subst hak'
        have : ¬ k = a := fun h => hak h.symm
        simp [pyDictSet, pyDictGet, hak, this]
      · simp [pyDictSet, pyDictGet, hak, hak', ih]

theorem pyDictSet_keys {α β : Type} [DecidableEq α] (m : List (α × β))
    (k : α) (v : β) :
    (pyDictSet m k v).map Prod.fst =
      if k ∈ m.map Prod.fst then m.map Prod.fst else m.map Prod.fst ++ [k] := by
  induction m with
  | nil => simp [pyDictSet]
  | cons p rest ih =>
    obtain ⟨a, b⟩ := p
    by_cases hak : a = k
    · subst hak
      simp [pyDictSet]
    · have hka : ¬ k = a := fun h => hak h.symm
      simp only [pyDictSet, hak, if_neg, not_false_iff, List.map_cons, ih]
      split
      · next h => simp [List.mem_cons, h]
      · next h => simp [List.mem_cons, hka, h]

theorem pyDictSet_keys_nodup {α β : Type} [DecidableEq α] (m : List (α × β))
    (k : α) (v : β) (h : (m.map Prod.fst).Nodup) :
    ((pyDictSet m k v).map Prod.fst).Nodup := by
  rw [pyDictSet_keys]
  split
  · exact h
  · next hnot =>
    refine List.Nodup.append h (List.nodup_singleton k) ?_
    simp [List.disjoint_singleton, hnot]

theorem pyDictSet_length {α β : Type} [DecidableEq α] (m : List (α × β))
    (k : α) (v : β) : (pyDictSet m k v).length ≤ m.length + 1 := by
  induction m with
  | nil => simp [pyDictSet]
  | cons p rest ih =>
    obtain ⟨a, b⟩ := p
    by_cases hak : a = k
    · simp [pyDictSet, hak]
    · simpa [pyDictSet, hak, Nat.succ_le_succ_iff] using ih

theorem pyDictSet_vals {α β : Type} [DecidableEq α] (P : β → Prop)
    (m : List (α × β)) (k : α) (v : β) (hm : ∀ p ∈ m, P p.2) (hv : P v) :
    ∀ p ∈ pyDictSet m k v, P p.2 := by
  induction m with
  | nil => simpa [pyDictSet] using hv
  | cons q rest ih =>
    obtain ⟨a, b⟩ := q
    intro p hp
    by_cases hak : a = k
    · simp only [pyDictSet, hak, if_pos, List.mem_cons] at hp
      rcases hp with h | h
      · cases h; exact hv
      · exact hm p (List.mem_cons_of_mem _ h)
    · simp only [pyDictSet, hak, if_neg, not_false_iff, List.mem_cons] at hp
      rcases hp with h | h
      · cases h; exact hm (a, b) (List.mem_cons_self _ _)
      · exact ih (fun q hq => hm q (List.mem_cons_of_mem _ hq)) p h

/-! ### Claim C10: last-wins dedup by stripped location -/

/-- Reference function: the serialization of the last block in traversal
order whose stripped location equals `k`, when items are numbered from
`index + 1`. -/
def lastOcc (detached_xblock_types : List String) (dump_id : String)
    (dump_timestamp : String) :
    List XBlock → Nat → UsageKey → Option BlockRow
  | [], _, _ => none
  | item :: rest, index, k =>
    match lastOcc detached_xblock_types dump_id dump_timestamp rest (index + 1) k with
    | some r => some r
    | none =>
      if strip_branch_and_version item.location = k then
        some (serialize_xblock item (index + 1) detached_xblock_types dump_id
          dump_timestamp)
      else none

theorem buildLocationMap_lookup (det : List String) (did ts : String) :
    ∀ (items : List XBlock) (index : Nat) (m : List (UsageKey × BlockRow))
      (k : UsageKey),
    pyDictGet (buildLocationMap det did ts items index m) k =
      (match lastOcc det did ts items index k with
       | some r => some r
       | none => pyDictGet m k) := by
  intro items
  induction items with
  | nil => intro index m k; simp [buildLocationMap, lastOcc]
  | cons item rest ih =>
    intro index m k
    rw [buildLocationMap, ih, lastOcc]
    cases lastOcc det did ts rest (index + 1) k with
    | some r => simp
    | none =>
      rw [pyDictGet_set]
      by_cases hs : strip_branch_and_version item.location = k <;> simp [hs]

theorem buildLocationMap_keys_nodup (det : List String) (did ts : String) :
    ∀ (items : List XBlock) (index : Nat) (m : List (UsageKey × BlockRow)),
    (m.map Prod.fst).Nodup →
    ((buildLocationMap det did ts items index m).map Prod.fst).Nodup := by
  intro items
  induction items with
  | nil => intro index m h; exact h
  | cons item rest ih =>
    intro index m h
    exact ih (index + 1) _ (pyDictSet_keys_nodup _ _ _ h)

theorem buildLocationMap_length (det : List String) (did ts : String) :
    ∀ (items : List XBlock) (index : Nat) (m : List (UsageKey × BlockRow)),
    (buildLocationMap det did ts items index m).length ≤
      m.length + items.length := by
  intro items
  induction items with
  | nil => intro index m; simp [buildLocationMap]
  | cons item rest ih =>
    intro index m
    calc (buildLocationMap det did ts (item :: rest) index m).length
        ≤ (pyDictSet m (strip_branch_and_version item.location)
            (serialize_xblock item (index + 1) det did ts)).length + rest.length :=
          ih (index + 1) _
      _ ≤ (m.length + 1) + rest.length :=
          Nat.add_le_add_right (pyDictSet_length _ _ _) _
      _ = m.length + (item :: rest).length := by
          simp only [List.length_cons]
          omega

/-- Two blocks whose locations differ only in the branch pointer: they
normalize to the same stripped location. -/
def blockDraft : XBlock :=
  ⟨⟨⟨"OrgA", "C101", "2024"⟩, "html@h1", some "draft-branch"⟩, "html",
    "Draft revision", "2023-01-01", []⟩

def blockPublished : XBlock :=
  ⟨⟨⟨"OrgA", "C101", "2024"⟩, "html@h1", none⟩, "html",
    "Published revision", "2023-01-02", []⟩

def overviewStub : CourseOverviewT :=
  ⟨"OrgA", "course-v1:OrgA+C101+2024", "Demo Course", "", "", "", "", false,
    "", "", "", "", "", false, JValue.s "", JValue.s "", false, false,
    JValue.s "", JValue.s ""⟩

/-- C10: in every flattening pass the emitted block rows have
pairwise-distinct stripped locations (the dict keys are nodup); the row
stored under a stripped location is the serialization of the *last* block
in traversal order that normalizes to it (`lastOcc`); the emitted row count
never exceeds the input block count; and it can be strictly smaller — two
blocks differing only in branch pointer collapse to the single row of the
later one. -/
theorem serialize_course_dedups_stripped_locations (did ts : String)
    (cid : CourseKeyT) (ov : CourseOverviewT) (items : List XBlock)
    (det : List String) :
    ((serialize_course did ts cid ov items det).nodes =
      (buildLocationMap det did ts items 0 []).map Prod.snd) ∧
    (((buildLocationMap det did ts items 0 []).map Prod.fst).Nodup) ∧
    (∀ k, pyDictGet (buildLocationMap det did ts items 0 []) k =
      lastOcc det did ts items 0 k) ∧
    ((serialize_course did ts cid ov items det).nodes.length ≤ items.length) ∧
    ((serialize_course "d" "t" ⟨"OrgA", "C101", "2024"⟩ overviewStub
        [blockDraft, blockPublished] []).nodes =
      [serialize_xblock blockPublished 2 [] "d" "t"]) := by
  refine ⟨rfl, ?_, ?_, ?_, by decide⟩
  · exact buildLocationMap_keys_nodup det did ts items 0 [] (by simp)
  · intro k
    rw [buildLocationMap_lookup]
    cases lastOcc det did ts items 0 k <;> simp [pyDictGet]
  · have h := buildLocationMap_length det did ts items 0 []
    simpa [serialize_course] using h

/-! ### Claim C4: scenario A (course root + one chapter child) -/

def courseLocA : UsageKey := ⟨⟨"OrgA", "C101", "2024"⟩, "course@course", none⟩

def chapterLocA : UsageKey := ⟨⟨"OrgA", "C101", "2024"⟩, "chapter@ch1", none⟩

def courseBlkA : XBlock :=
  ⟨courseLocA, "course", "Demo Course", "2023-01-01", [chapterLocA]⟩

def chapterBlkA : XBlock :=
  ⟨chapterLocA, "chapter", "Chapter 1", "2023-01-02", []⟩

def scenarioA : SerializedCourse :=
  serialize_course "dump-0001" "2024-01-01 00:00:00" ⟨"OrgA", "C101", "2024"⟩
    overviewStub [courseBlkA, chapterBlkA]
    ["static_tab", "about", "course_info"]

/-- C4 counterexample: at the scenario-A input (one "course" root with a
single "chapter" child), the claim as stated is false: the flattening does
produce 2 block rows, 1 relationship connecting them and order values 1 and
2, but the emitted rows carry no `section` coordinate at all — the
`xblock_data_json` written by `serialize_xblock` has no "section" key, so
its values cannot be 0 and 1. -/
theorem serialize_course_scenario_a_claim_false :
    ¬ (scenarioA.nodes.length = 2 ∧
       scenarioA.relationships.length = 1 ∧
       scenarioA.nodes.map (fun r => r.order) = [1, 2] ∧
       scenarioA.relationships.map (fun r => (r.parent_location, r.child_location)) =
         [(usageKeyStr courseLocA, usageKeyStr chapterLocA)] ∧
       scenarioA.nodes.map (fun r => pyDictGet r.xblock_data_json "section") =
         [some (JValue.n 0), some (JValue.n 1)]) := by
  decide

/-- C4 amended: the scenario-A flattening produces exactly 2 block rows and
1 relationship row connecting the course root to the chapter, with order
values 1 and 2 (and relationship order 0); the rows carry *no*
section/subsection/unit coordinates — their `xblock_data_json` holds
exactly the keys course, run, block_type and detached. -/
theorem serialize_course_scenario_a :
    scenarioA.nodes.length = 2 ∧
    scenarioA.relationships.length = 1 ∧
    scenarioA.nodes.map (fun r => r.order) = [1, 2] ∧
    scenarioA.relationships.map (fun r => (r.parent_location, r.child_location)) =
      [(usageKeyStr courseLocA, usageKeyStr chapterLocA)] ∧
    scenarioA.relationships.map (fun r => r.order) = [0] ∧
    scenarioA.nodes.map (fun r => r.xblock_data_json.map Prod.fst) =
      [["course", "run", "block_type", "detached"],
       ["course", "run", "block_type", "detached"]] ∧
    scenarioA.nodes.map (fun r => pyDictGet r.xblock_data_json "section") =
      [none, none] := by
  decide

/-! ## Batch identifier sharing (claim C3)

Two generation mechanisms exist in the source:
* `CoursePublishedSink.serialize_course` (course_published.py:186-194)
  draws `uuid.uuid4()` / `timezone.now()` *once* and threads the pair
  through every overview/block/relationship row of the dump call.
* `BaseSinkSerializer` (serializers.py:11-31) declares `dump_id` and
  `time_last_dumped` as `SerializerMethodField`s whose methods call
  `uuid.uuid4()` / `timezone.now()` on *every* `to_representation` call, so
  a `ModelBaseSink.dump(..., many=True)` (base_sink.py:176-210) serializes
  each item of the batch with its own fresh `dump_id`.  `uuid4` draws are
  modelled by a deterministic supply of distinct values (fresh draws of a
  122-bit random UUID are distinct by intent); `timezone.now()` by a fixed
  clock reading. -/

theorem buildLocationMap_vals (det : List String) (did ts : String)
    (P : BlockRow → Prop)
    (hP : ∀ item idx, P (serialize_xblock item idx det did ts)) :
    ∀ (items : List XBlock) (index : Nat) (m : List (UsageKey × BlockRow)),
    (∀ p ∈ m, P p.2) →
    ∀ p ∈ buildLocationMap det did ts items index m, P p.2 := by
  intro items
  induction items with
  | nil => intro index m hm; exact hm
  | cons item rest ih =>
    intro index m hm
    exact ih (index + 1) _ (pyDictSet_vals P m _ _ hm (hP item (index + 1)))

theorem buildRelationships_vals (cks did ts : String)
    (locMap : List (UsageKey × BlockRow))
    (P : RelationshipRow → Prop)
    (hP : ∀ r : RelationshipRow, r.dump_id = did → r.time_last_dumped = ts → P r) :
    ∀ (items : List XBlock) (acc : List RelationshipRow),
    (∀ r ∈ acc, P r) →
    ∀ r ∈ items.foldl (fun acc item =>
      acc ++ (item.children.enum.filterMap (fun ic =>
        match pyDictGet locMap (strip_branch_and_version item.location),
          pyDictGet locMap (strip_branch_and_version ic.2) with
        | some parent_node, some child_node =>
          some { course_key := cks,
                 parent_location := parent_node.location,
                 child_location := child_node.location,
                 order := ic.1,
                 dump_id := did,
                 time_last_dumped := ts }
        | _, _ => none))) acc, P r := by
  intro items
  induction items with
  | nil => intro acc hacc; exact hacc
  | cons item rest ih =>
    intro acc hacc
    refine ih _ ?_
    intro r hr
    rcases List.mem_append.mp hr with h | h
    · exact hacc r h
    · obtain ⟨ic, _, hmk⟩ := List.mem_filterMap.mp h
      revert hmk
      cases pyDictGet locMap (strip_branch_and_version item.location) with
      | none => intro hmk; cases hmk
      | some pn =>
        cases pyDictGet locMap (strip_branch_and_version ic.2) with
        | none => intro hmk; cases hmk
        | some cn =>
          intro hmk
          cases Option.some.inj hmk
          exact hP _ rfl rfl

/-! ### ModelBaseSink.dump with the DRF base serializer -/

/-- Generator state: the next fresh uuid4 draw (as a counter into a supply
of distinct values) and the current clock reading. -/
structure GenSt where
  nextUuid : Nat
  nowTick : Nat
deriving DecidableEq, Repr

/-- A serialized row from a `BaseSinkSerializer` subclass: the
model-specific fields are opaque (`payload`), the two
`SerializerMethodField`s are materialized per row. -/
structure SinkRow where
  payload : String
  dump_id : Nat
  time_last_dumped : Nat
deriving DecidableEq, Repr

/-- One `to_representation` call: `get_dump_id` draws `uuid.uuid4()`
(consuming a fresh value), `get_time_last_dumped` reads
`timezone.now()`. -/
def baseSerializerRepresentation (payload : String) (st : GenSt) :
    SinkRow × GenSt :=
  (⟨payload, st.nextUuid, st.nowTick⟩, ⟨st.nextUuid + 1, st.nowTick⟩)

/-- `Serializer(items, many=True).data`: the DRF list serializer calls
`to_representation` once per item. -/
def baseSerializerRepresentationMany :
    List String → GenSt → List SinkRow × GenSt
  | [], st => ([], st)
  | p :: rest, st =>
    let (row, st') := baseSerializerRepresentation p st
    let (rows, st'') := baseSerializerRepresentationMany rest st'
    (row :: rows, st'')

/-- `ModelBaseSink.dump(item_ids, many=True)` (base_sink.py:180-195):
serialize the batch, send it, then hand each serialized item together with
its own `item["dump_id"]` / `item["time_last_dumped"]` to every nested
sink's `dump_related`.  Returns the serialized rows and the recorded
`dump_related` invocations `(nested sink, payload, dump_id,
time_last_dumped)`. -/
def model_dump_many (payloads : List String) (st : GenSt)
    (nested_sinks : List String) :
    List SinkRow × List (String × String × Nat × Nat) :=
  let rows := (baseSerializerRepresentationMany payloads st).1
  (rows, rows.flatMap (fun item => nested_sinks.map
    (fun ns => (ns, item.payload, item.dump_id, item.time_last_dumped))))

/-- `ModelBaseSink.dump(item_id, many=False)` (base_sink.py:196-210). -/
def model_dump_single (payload : String) (st : GenSt)
    (nested_sinks : List String) :
    SinkRow × List (String × String × Nat × Nat) :=
  let row := (baseSerializerRepresentation payload st).1
  (row, nested_sinks.map
    (fun ns => (ns, row.payload, row.dump_id, row.time_last_dumped)))

/-- C3 counterexample: a single `ModelBaseSink.dump(["a", "b"], many=True)`
call serializes two rows, and `BaseSinkSerializer.get_dump_id` draws a
fresh `uuid.uuid4()` for each of them, so two rows of the same dump call
differ in `dump_id` — the claim that no two rows of one dump call differ
in the batch id fields is false on the code. -/
theorem dump_many_rows_share_dump_id_false :
    ¬ (∀ r1 ∈ (model_dump_many ["a", "b"] ⟨0, 0⟩ []).1,
       ∀ r2 ∈ (model_dump_many ["a", "b"] ⟨0, 0⟩ []).1,
       r1.dump_id = r2.dump_id ∧ r1.time_last_dumped = r2.time_last_dumped) := by
  decide

/-- C3 amended: batch-identifier sharing holds per *serialized parent row*,
not per dump call.  (1) In `CoursePublishedSink.serialize_course` the claim
is as stated: the overview row, every block row and every relationship row
of one dump call carry the single `dump_id`/`time_last_dumped` pair drawn
at the top of the call.  (2) In `ModelBaseSink.dump` with a single item,
the nested sinks' `dump_related` calls all receive exactly the parent
row's `dump_id`/`time_last_dumped`; but in a `many=True` dump each row of
the batch gets its own freshly drawn `dump_id` (see the counterexample), so
sharing is only guaranteed between a parent row and the nested rows derived
from it. -/
theorem dump_batch_id_sharing (did ts : String) (cid : CourseKeyT)
    (ov : CourseOverviewT) (items : List XBlock) (det : List String) :
    ((serialize_course did ts cid ov items det).overview.dump_id = did ∧
     (serialize_course did ts cid ov items det).overview.time_last_dumped = ts) ∧
    (∀ r ∈ (serialize_course did ts cid ov items det).nodes,
      r.dump_id = did ∧ r.time_last_dumped = ts) ∧
    (∀ r ∈ (serialize_course did ts cid ov items det).relationships,
      r.dump_id = did ∧ r.time_last_dumped = ts) ∧
    (∀ (payload : String) (st : GenSt) (nested_sinks : List String),
      (model_dump_single payload st nested_sinks).2 =
        nested_sinks.map (fun ns => (ns, payload,
          (model_dump_single payload st nested_sinks).1.dump_id,
          (model_dump_single payload st nested_sinks).1.time_last_dumped))) := by
  refine ⟨⟨rfl, rfl⟩, ?_, ?_, fun payload st nested_sinks => rfl⟩
  · intro r hr
    have := buildLocationMap_vals det did ts
      (fun b => b.dump_id = did ∧ b.time_last_dumped = ts)
      (fun item idx => ⟨rfl, rfl⟩) items 0 [] (by simp)
    obtain ⟨p, hp, hpr⟩ := List.mem_map.mp hr
    exact hpr ▸ this p hp
  · intro r hr
    exact buildRelationships_vals (courseKeyStr cid) did ts _
      (fun b => b.dump_id = did ∧ b.time_last_dumped = ts)
      (fun b h1 h2 => ⟨h1, h2⟩) items [] (by simp) r hr

theorem dump_batch_id_sharing_witness :
    (serialize_xblock chapterBlkA 2 ["static_tab", "about", "course_info"]
        "dump-0001" "2024-01-01 00:00:00") ∈ scenarioA.nodes ∧
    ((serialize_xblock chapterBlkA 2 ["static_tab", "about", "course_info"]
        "dump-0001" "2024-01-01 00:00:00").dump_id = "dump-0001" ∧
     (serialize_xblock chapterBlkA 2 ["static_tab", "about", "course_info"]
        "dump-0001" "2024-01-01 00:00:00").time_last_dumped =
        "2024-01-01 00:00:00") :=
  ⟨by decide,
    (dump_batch_id_sharing "dump-0001" "2024-01-01 00:00:00"
      ⟨"OrgA", "C101", "2024"⟩ overviewStub [courseBlkA, chapterBlkA]
      ["static_tab", "about", "course_info"]).2.1 _ (by decide)⟩

/-! ## UserRetirementSink.send_item (user_retire.py:23-49)

`send_item` receives a serialized user (or, with `many=True`, a list),
builds the set `{str(user["user_id"]) for user in users}`, joins it as
`",".join(sorted(user_ids))` and issues one `ALTER TABLE ... DELETE`
statement per configured PII table.  The Python set comprehension is
modelled by `dedup`, `sorted` by an insertion sort under the lexicographic
string order, and the issued HTTP requests by the list of query texts. -/

structure RetiredUserRow where
  user_id : Nat
deriving DecidableEq, Repr

/-- `serialized_item` as passed to `send_item`: one dict or a list of
dicts, depending on `many`. -/
inductive SerializedUsers
  | one (u : RetiredUserRow)
  | many (us : List RetiredUserRow)
deriving DecidableEq, Repr

/-- `users = serialized_item if many else [serialized_item]`. -/
def usersOf : SerializedUsers → List RetiredUserRow
  | SerializedUsers.one u => [u]
  | SerializedUsers.many us => us

/-- Python string comparison, code-point lexicographic, on the character
lists. -/
def charListLeb : List Char → List Char → Bool
  | [], _ => true
  | _ :: _, [] => false
  | c :: cs, d :: ds => if c = d then charListLeb cs ds else decide (c.toNat < d.toNat)

/-- Python `str.__le__`. -/
def pyStrLe (a b : String) : Prop := charListLeb a.data b.data = true

instance : DecidableRel pyStrLe := fun a b =>
  inferInstanceAs (Decidable (charListLeb a.data b.data = true))

theorem char_toNat_inj {c d : Char} (h : c.toNat = d.toNat) : c = d :=
  Char.eq_of_val_eq (UInt32.ext h)

theorem charListLeb_total : ∀ a b, charListLeb a b = true ∨ charListLeb b a = true
  | [], _ => Or.inl rfl
  | _ :: _, [] => Or.inr rfl
  | c :: cs, d :: ds => by
    by_cases hcd : c = d
    · subst hcd
      simpa [charListLeb] using charListLeb_total cs ds
    · have hdc : d ≠ c := fun h => hcd h.symm
      have hne : c.toNat ≠ d.toNat := fun h => hcd (char_toNat_inj h)
      simp only [charListLeb, hcd, hdc, if_neg, not_false_iff, decide_eq_true_eq]
      omega

theorem charListLeb_trans :
    ∀ a b c, charListLeb a b = true → charListLeb b c = true →
      charListLeb a c = true
  | [], _, _ => by intro _ _; rfl
  | _ :: _, [], _ => by intro h1 _; simp [charListLeb] at h1
  | _ :: _, _ :: _, [] => by intro _ h2; simp [charListLeb] at h2
  | x :: xs, y :: ys, z :: zs => by
    intro h1 h2
    by_cases hxy : x = y
    · subst hxy
      by_cases hyz : x = z
      · subst hyz
        simp only [charListLeb, if_pos] at h1 h2 ⊢
        exact charListLeb_trans xs ys zs h1 h2
      · simp only [charListLeb, hyz, if_neg, not_false_iff, if_pos] at h1 h2 ⊢
        exact h2
    · by_cases hyz : y = z
      · subst hyz
        simp only [charListLeb, hxy, if_neg, not_false_iff] at h1 ⊢
        exact h1
      · simp only [charListLeb, hxy, hyz, if_neg, not_false_iff,
          decide_eq_true_eq] at h1 h2
        have hxz : x ≠ z := by
          intro h
          subst h
          omega
        simp only [charListLeb, hxz, if_neg, not_false_iff, decide_eq_true_eq]
        omega

theorem charListLeb_antisymm :
    ∀ a b, charListLeb a b = true → charListLeb b a = true → a = b
  | [], [] => by intro _ _; rfl
  | [], _ :: _ => by intro _ h2; simp [charListLeb] at h2
  | _ :: _, [] => by intro h1 _; simp [charListLeb] at h1
  | c :: cs, d :: ds => by
    intro h1 h2
    by_cases hcd : c = d
    · subst hcd
      simp only [charListLeb, if_pos] at h1 h2
      rw [charListLeb_antisymm cs ds h1 h2]
    · have hdc : d ≠ c := fun h => hcd h.symm
      simp only [charListLeb, hcd, hdc, if_neg, not_false_iff,
        decide_eq_true_eq] at h1 h2
      omega

theorem string_data_inj {a b : String} (h : a.data = b.data) : a = b := by
  cases a; cases b; simp_all

instance : IsTotal String pyStrLe :=
  ⟨fun a b => charListLeb_total a.data b.data⟩

instance : IsTrans String pyStrLe :=
  ⟨fun a b c => charListLeb_trans a.data b.data c.data⟩

instance : IsAntisymm String pyStrLe :=
  ⟨fun a b h1 h2 => string_data_inj (charListLeb_antisymm a.data b.data h1 h2)⟩

/-- `sorted({str(user["user_id"]) for user in users})`: the set
comprehension deduplicates, `sorted` orders under Python string
comparison. -/
def canonicalRetireIds (users : List RetiredUserRow) : List String :=
  ((users.map (fun u => toString u.user_id)).dedup).insertionSort pyStrLe

/-- `",".join(sorted({str(user["user_id"]) for user in users}))`. -/
def retireUserIdsStr (users : List RetiredUserRow) : String :=
  String.intercalate "," (canonicalRetireIds users)

def user_retire_send_item (ch_database : String)
    (clickhouse_pii_tables : List String) (serialized_item : SerializedUsers) :
    List String :=
  let users := usersOf serialized_item
  let user_ids_str := retireUserIdsStr users
  clickhouse_pii_tables.map (fun table =>
    "ALTER TABLE " ++ ch_database ++ "." ++ table ++
      " DELETE WHERE user_id in (" ++ user_ids_str ++ ")")

/-- The sorted, deduplicated identifier list is canonical: two inputs with
the same identifier set produce the same list. -/
theorem canonicalRetireIds_set_invariant (users1 users2 : List RetiredUserRow)
    (h : (users1.map (fun u => toString u.user_id)).toFinset =
      (users2.map (fun u => toString u.user_id)).toFinset) :
    canonicalRetireIds users1 = canonicalRetireIds users2 := by
  unfold canonicalRetireIds
  have hmem : ∀ x, x ∈ (users1.map (fun u => toString u.user_id)).dedup ↔
      x ∈ (users2.map (fun u => toString u.user_id)).dedup := by
    intro x
    rw [List.mem_dedup, List.mem_dedup, ← List.mem_toFinset, h, List.mem_toFinset]
  have hperm : List.Perm (users1.map (fun u => toString u.user_id)).dedup
      (users2.map (fun u => toString u.user_id)).dedup :=
    (List.perm_ext_iff_of_nodup (List.nodup_dedup _) (List.nodup_dedup _)).mpr hmem
  refine List.eq_of_perm_of_sorted ?_ (List.sorted_insertionSort _ _)
    (List.sorted_insertionSort _ _)
  exact ((List.perm_insertionSort _ _).trans hperm).trans
    (List.perm_insertionSort _ _).symm

/-- C8: the retirement sink deduplicates and deterministically orders the
user identifiers before building each delete predicate: the generated
query list per PII table is a function of the identifier *set* only (any
two serialized inputs — whatever their multiplicities, order, or
one-vs-many shape — with equal stringified id sets yield identical
queries), the identifier list inside the predicate is sorted and free of
duplicates, and a repeat invocation on the same identifier set issues
exactly the identical query texts (so the second run adds nothing beyond
the idempotent no-op delete).  Concretely, ids 246,22,246,91 give the
single query observed in tests/test_user_retire.py. -/
theorem user_retire_send_item_canonical (ch_database : String)
    (tables : List String) (s1 s2 : SerializedUsers)
    (h : ((usersOf s1).map (fun u => toString u.user_id)).toFinset =
      ((usersOf s2).map (fun u => toString u.user_id)).toFinset) :
    (user_retire_send_item ch_database tables s1 =
      user_retire_send_item ch_database tables s2) ∧
    (∀ users : List RetiredUserRow,
      (canonicalRetireIds users).Sorted pyStrLe ∧
      (canonicalRetireIds users).Nodup) ∧
    (user_retire_send_item "cool_data" ["user_profile"]
        (SerializedUsers.many [⟨246⟩, ⟨22⟩, ⟨246⟩, ⟨91⟩]) =
      ["ALTER TABLE cool_data.user_profile DELETE WHERE user_id in (22,246,91)"]) := by
  refine ⟨?_, ?_, by decide⟩
  · have hc := canonicalRetireIds_set_invariant (usersOf s1) (usersOf s2) h
    simp only [user_retire_send_item, retireUserIdsStr, hc]
  · intro users
    exact ⟨List.sorted_insertionSort _ _,
      ((List.perm_insertionSort _ _).nodup_iff).mpr (List.nodup_dedup _)⟩

theorem user_retire_send_item_canonical_witness :
    (((usersOf (SerializedUsers.many [⟨246⟩, ⟨22⟩, ⟨246⟩, ⟨91⟩])).map
        (fun u => toString u.user_id)).toFinset =
      ((usersOf (SerializedUsers.many [⟨91⟩, ⟨22⟩, ⟨246⟩])).map
        (fun u => toString u.user_id)).toFinset) ∧
    user_retire_send_item "cool_data" ["user_profile", "external_id"]
        (SerializedUsers.many [⟨246⟩, ⟨22⟩, ⟨246⟩, ⟨91⟩]) =
      user_retire_send_item "cool_data" ["user_profile", "external_id"]
        (SerializedUsers.many [⟨91⟩, ⟨22⟩, ⟨246⟩]) :=
  ⟨by decide,
    (user_retire_send_item_canonical "cool_data" ["user_profile", "external_id"]
      (SerializedUsers.many [⟨246⟩, ⟨22⟩, ⟨246⟩, ⟨91⟩])
      (SerializedUsers.many [⟨91⟩, ⟨22⟩, ⟨246⟩]) (by decide)).1⟩

end EventSink
